import Mathlib

/-!
Shallow embedding of the waguri-fca client operations (`profileGuard` in its two
variants, `lockProfile`, `reactPost`) and of the small amount of JavaScript value
semantics they depend on (truthiness, `typeof`, dynamic callback detection,
base64 encoding of the feedback token).  Each definition is translated from the
repository source; the theorems at the end settle the frozen claims about that
source.
-/

namespace Waguri

/-- Model of the JavaScript values that can reach the parameters of the three
client operations: the primitives, plus ordinary and async functions (which the
code distinguishes with `utils.getType`).  Exotic wrapper objects are outside
the model. -/
inductive JSVal where
  | undef
  | null
  | bool (b : Bool)
  | num (n : Int)
  | str (s : String)
  | func
  | asyncFunc
  deriving DecidableEq, Repr

namespace JSVal

/-- JavaScript truthiness of a value (`if (x)`): `undefined`, `null`, `false`,
`0` and the empty string are falsy, everything else in the model is truthy. -/
def truthy : JSVal → Bool
  | .undef => false
  | .null => false
  | .bool b => b
  | .num n => n != 0
  | .str s => s != ""
  | .func => true
  | .asyncFunc => true

/-- Model of `utils.getType`, i.e. `Object.prototype.toString.call(x).slice(8, -1)`. -/
def getType : JSVal → String
  | .undef => "Undefined"
  | .null => "Null"
  | .bool _ => "Boolean"
  | .num _ => "Number"
  | .str _ => "String"
  | .func => "Function"
  | .asyncFunc => "AsyncFunction"

/-- Model of the `typeof` operator. -/
def typeof : JSVal → String
  | .undef => "undefined"
  | .null => "object"
  | .bool _ => "boolean"
  | .num _ => "number"
  | .str _ => "string"
  | .func => "function"
  | .asyncFunc => "function"

/-- The underlying string of a string value; `none` for every other value.
Calling `.toUpperCase()` on a value whose `asString` is `none` is a `TypeError`. -/
def asString : JSVal → Option String
  | .str s => some s
  | _ => none

/-- Whether the value is a primitive string. -/
def isString (v : JSVal) : Bool := v.asString.isSome

/-- The underlying boolean of a boolean value; `none` for every other value
(so `asBool v = none` is exactly `typeof v !== "boolean"`). -/
def asBool : JSVal → Option Bool
  | .bool b => some b
  | _ => none

/-- Whether `utils.getType` classifies the value as `Function` or
`AsyncFunction` (the dynamic callback detection of the second `profileGuard`
variant and of `lockProfile`). -/
def isFunction (v : JSVal) : Bool :=
  v.getType == "Function" || v.getType == "AsyncFunction"

/-- String interpolation of a value inside a template literal, `String(x)`. -/
def toDisplayString : JSVal → String
  | .undef => "undefined"
  | .null => "null"
  | .bool b => if b then "true" else "false"
  | .num n => toString n
  | .str s => s
  | .func => "function"
  | .asyncFunc => "function"

/-- Model of `JSON.stringify` restricted to the values of the model (used only
to build the message of the error thrown from a response carrying `errors`). -/
def jsonStringify : JSVal → String
  | .undef => "undefined"
  | .null => "null"
  | .bool b => if b then "true" else "false"
  | .num n => toString n
  | .str s => "\"" ++ s ++ "\""
  | .func => "undefined"
  | .asyncFunc => "undefined"

end JSVal

/-- Classification of the errors the operations can surface, following the
taxonomy the code realises: locally detected input errors (`ValidationError`),
errors built from an `error`/`errors` field of the decoded response
(`RemoteError`), failures propagated from the transport / response validator,
`TypeError`s raised by the JavaScript runtime itself, and plain non-`Error`
objects thrown by the first `profileGuard` variant. -/
inductive JSErrorKind where
  | validation
  | remote
  | transport
  | auth
  | typeError
  | thrownObject
  deriving DecidableEq, Repr

/-- An error value: its kind together with the message it carries. -/
structure JSError where
  kind : JSErrorKind
  message : String
  deriving DecidableEq, Repr

/-- The decoded transport response as the operations inspect it: the `err`
field (checked by the first `profileGuard` variant) and the `error` / `errors`
fields (checked by the other three functions).  A field that is absent is
`JSVal.undef`. -/
structure DecodedResponse where
  err : JSVal
  error : JSVal
  errors : JSVal
  deriving DecidableEq, Repr

/-- The message of the error thrown on a response carrying `error` or `errors`:
`new Error(response.error ? response.error : JSON.stringify(response.errors))`. -/
def remoteErrMsg (resp : DecodedResponse) : String :=
  if resp.error.truthy then resp.error.toDisplayString else resp.errors.jsonStringify

/-- The observable fate of a promise: still pending, fulfilled with `undefined`,
fulfilled with the (unknown) return value of a caller-supplied callback,
fulfilled with a result object, or rejected with an error. -/
inductive Settle (ρ : Type) where
  | pending
  | fulfilledUndef
  | fulfilledCbRet
  | fulfilledRes (r : ρ)
  | rejected (e : JSError)
  deriving DecidableEq, Repr

/-- Complete observable outcome of running one of the three `async` operations:
the settlement of the promise the caller receives (the async function's own
promise), the settlement of the internal `returnPromise`, the `(err, data)`
invocations of the callback, the requests posted through the transport, the
`utils.error` entries (tag, message) and the `utils.log` messages. -/
structure OpOutcome (req ρ : Type) where
  caller : Settle ρ
  internal : Settle ρ
  cbCalls : List (Option JSError × Option ρ)
  posts : List req
  errorLogs : List (String × String)
  logs : List String
  deriving DecidableEq, Repr

/-- Shared early-exit path of the three async operations on a failed local
validation: `const error = new Error(msg); utils.error(tag, error); return
callback(error);`.  With no caller-supplied callback the default callback
rejects the internal `returnPromise`, and the early `return` hands the caller
the async function's own promise, fulfilled with `undefined`; with a
caller-supplied callback the internal promise is never settled and the caller's
promise fulfills with whatever the callback returned. -/
def earlyValidation (hasCb : Bool) (tag msg : String) : OpOutcome req ρ :=
  let e : JSError := ⟨.validation, msg⟩
  { caller := if hasCb then .fulfilledCbRet else .fulfilledUndef
    internal := if hasCb then .pending else .rejected e
    cbCalls := [(some e, none)]
    posts := []
    errorLogs := [(tag, msg)]
    logs := [] }

/-- Shared tail of the three async operations once the request `r` has been
posted: await the transport and the response validator, throw a remote error
when the decoded response carries `error` or `errors`, otherwise deliver
`result`; every path ends in `return returnPromise`, so the caller's promise
adopts the internal one. -/
def runTransact (hasCb : Bool) (tag : String) (r : req) (logMsg : String)
    (transport : Except JSError DecodedResponse) (result : ρ) (successLog : String) :
    OpOutcome req ρ :=
  match transport with
  | .error e =>
      { caller := if hasCb then .pending else .rejected e
        internal := if hasCb then .pending else .rejected e
        cbCalls := [(some e, none)]
        posts := [r]
        errorLogs := [(tag, e.message)]
        logs := [logMsg] }
  | .ok resp =>
      if resp.error.truthy || resp.errors.truthy then
        let e : JSError := ⟨.remote, remoteErrMsg resp⟩
        { caller := if hasCb then .pending else .rejected e
          internal := if hasCb then .pending else .rejected e
          cbCalls := [(some e, none)]
          posts := [r]
          errorLogs := [(tag, e.message)]
          logs := [logMsg] }
      else
        { caller := if hasCb then .pending else .fulfilledRes result
          internal := if hasCb then .pending else .fulfilledRes result
          cbCalls := [(none, some result)]
          posts := [r]
          errorLogs := []
          logs := [logMsg, successLog] }

/-- The session context visible to the operations: the logged-in user id. -/
structure Ctx where
  userID : String
  deriving DecidableEq, Repr

/-! ### Base64 and UTF-8

`reactPost` computes its feedback identifier as
`Buffer.from("feedback:" + postID).toString("base64")`, i.e. the standard
base64 encoding of the UTF-8 bytes of the string.  Both encodings are embedded
here over `Nat` byte values, together with decoders witnessing reversibility. -/

/-- The standard base64 alphabet, in order. -/
def b64chars : List Char :=
  "ABCDEFGHIJKLMNOPQRSTUVWXYZabcdefghijklmnopqrstuvwxyz0123456789+/".data

/-- The base64 digit of a six-bit group. -/
def alpha (n : Nat) : Char := b64chars.getD n 'A'

/-- The six-bit group of a base64 digit, `none` for characters outside the
alphabet. -/
def unalpha (c : Char) : Option Nat := b64chars.indexOf? c

theorem unalpha_alpha : ∀ n < 64, unalpha (alpha n) = some n := by decide

theorem alpha_ne_pad : ∀ n < 64, (alpha n != '=') = true := by decide

/-- Standard base64 of a byte sequence: groups of three bytes become four
digits; a final group of one or two bytes is padded with `=`. -/
def b64encodeBytes : List Nat → List Char
  | [] => []
  | [a] => [alpha (a / 4), alpha (a % 4 * 16), '=', '=']
  | [a, b] => [alpha (a / 4), alpha (a % 4 * 16 + b / 16), alpha (b % 16 * 4), '=']
  | a :: b :: c :: rest =>
      alpha (a / 4) :: alpha (a % 4 * 16 + b / 16) :: alpha (b % 16 * 4 + c / 64) ::
        alpha (c % 64) :: b64encodeBytes rest

/-- The six-bit groups of a byte sequence (base64 digits before the alphabet
mapping). -/
def sextetsOf : List Nat → List Nat
  | [] => []
  | [a] => [a / 4, a % 4 * 16]
  | [a, b] => [a / 4, a % 4 * 16 + b / 16, b % 16 * 4]
  | a :: b :: c :: rest =>
      a / 4 :: (a % 4 * 16 + b / 16) :: (b % 16 * 4 + c / 64) :: c % 64 :: sextetsOf rest

/-- Reassemble bytes from six-bit groups (the inverse of `sextetsOf`). -/
def unchunkSextets : List Nat → List Nat
  | w :: x :: y :: z :: rest =>
      (w * 4 + x / 16) :: (x % 16 * 16 + y / 4) :: (y % 4 * 64 + z) :: unchunkSextets rest
  | [w, x, y] => [w * 4 + x / 16, x % 16 * 16 + y / 4]
  | [w, x] => [w * 4 + x / 16]
  | _ => []

/-- Map a partial function over a list, failing when any element fails. -/
def mapOption (f : α → Option β) : List α → Option (List β)
  | [] => some []
  | a :: l =>
      match f a, mapOption f l with
      | some b, some bl => some (b :: bl)
      | _, _ => none

/-- Base64 decoding: strip the padding, map digits back to six-bit groups, and
reassemble the bytes. -/
def b64decodeChars (cs : List Char) : Option (List Nat) :=
  (mapOption unalpha (cs.takeWhile (· != '='))).map unchunkSextets

theorem mapOption_unalpha_encode : ∀ bs : List Nat, (∀ b ∈ bs, b < 256) →
    mapOption unalpha ((b64encodeBytes bs).takeWhile (· != '=')) = some (sextetsOf bs)
  | [], _ => rfl
  | [a], h => by
      have ha : a < 256 := h a (by simp)
      have h1 : a / 4 < 64 := by omega
      have h2 : a % 4 * 16 < 64 := by omega
      simp [b64encodeBytes, sextetsOf, mapOption, alpha_ne_pad _ h1, alpha_ne_pad _ h2,
        unalpha_alpha _ h1, unalpha_alpha _ h2]
  | [a, b], h => by
      have ha : a < 256 := h a (by simp)
      have hb : b < 256 := h b (by simp)
      have h1 : a / 4 < 64 := by omega
      have h2 : a % 4 * 16 + b / 16 < 64 := by omega
      have h3 : b % 16 * 4 < 64 := by omega
      simp [b64encodeBytes, sextetsOf, mapOption, alpha_ne_pad _ h1, alpha_ne_pad _ h2,
        alpha_ne_pad _ h3, unalpha_alpha _ h1, unalpha_alpha _ h2, unalpha_alpha _ h3]
  | a :: b :: c :: rest, h => by
      have ha : a < 256 := h a (by simp)
      have hb : b < 256 := h b (by simp)
      have hc : c < 256 := h c (by simp)
      have ih := mapOption_unalpha_encode rest (fun x hx => h x (by simp [hx]))
      have h1 : a / 4 < 64 := by omega
      have h2 : a % 4 * 16 + b / 16 < 64 := by omega
      have h3 : b % 16 * 4 + c / 64 < 64 := by omega
      have h4 : c % 64 < 64 := by omega
      simp [b64encodeBytes, sextetsOf, mapOption, alpha_ne_pad _ h1, alpha_ne_pad _ h2,
        alpha_ne_pad _ h3, alpha_ne_pad _ h4, unalpha_alpha _ h1, unalpha_alpha _ h2,
        unalpha_alpha _ h3, unalpha_alpha _ h4, ih]

theorem unchunk_sextetsOf : ∀ bs : List Nat, (∀ b ∈ bs, b < 256) →
    unchunkSextets (sextetsOf bs) = bs
  | [], _ => rfl
  | [a], h => by
      have ha : a < 256 := h a (by simp)
      simp [sextetsOf, unchunkSextets]
      omega
  | [a, b], h => by
      have ha : a < 256 := h a (by simp)
      have hb : b < 256 := h b (by simp)
      simp [sextetsOf, unchunkSextets]
      omega
  | a :: b :: c :: rest, h => by
      have ha : a < 256 := h a (by simp)
      have hb : b < 256 := h b (by simp)
      have hc : c < 256 := h c (by simp)
      have ih := unchunk_sextetsOf rest (fun x hx => h x (by simp [hx]))
      simp [sextetsOf, unchunkSextets, ih]
      omega

theorem b64decode_encode (bs : List Nat) (h : ∀ b ∈ bs, b < 256) :
    b64decodeChars (b64encodeBytes bs) = some bs := by
  simp [b64decodeChars, mapOption_unalpha_encode bs h, unchunk_sextetsOf bs h]

/-- UTF-8 encoding of one character (the byte sequence `Buffer.from` produces
for it), expressed with arithmetic on the code point. -/
def utf8Bytes (c : Char) : List Nat :=
  let v := c.toNat
  if v < 128 then [v]
  else if v < 2048 then [192 + v / 64, 128 + v % 64]
  else if v < 65536 then [224 + v / 4096, 128 + v / 64 % 64, 128 + v % 64]
  else [240 + v / 262144, 128 + v / 4096 % 64, 128 + v / 64 % 64, 128 + v % 64]

/-- Build the character of a code point, `none` when the point is not a valid
unicode scalar value. -/
def mkChar? (n : Nat) : Option Char :=
  if h : n.isValidChar then some (Char.ofNatAux n h) else none

theorem mkChar?_toNat (c : Char) : mkChar? c.toNat = some c := by
  have h : c.toNat.isValidChar := c.valid
  simp only [mkChar?, dif_pos h, Option.some.injEq]
  apply Char.eq_of_val_eq
  apply congrArg UInt32.mk
  apply BitVec.eq_of_toNat_eq
  simp [Char.ofNatAux, Char.toNat, UInt32.toNat]

theorem char_toNat_lt (c : Char) : c.toNat < 1114112 := by
  have h : c.toNat.isValidChar := c.valid
  rcases h with h | ⟨_, h2⟩ <;> omega

theorem utf8Bytes_lt (c : Char) : ∀ b ∈ utf8Bytes c, b < 256 := by
  intro b hb
  have hv := char_toNat_lt c
  simp only [utf8Bytes] at hb
  split_ifs at hb <;> simp at hb <;> omega

/-- One step of UTF-8 decoding: given the first byte and the remaining bytes,
produce the decoded character and the bytes left over, or `none` on malformed
input (stray continuation bytes, truncated sequences, overlong encodings,
invalid scalar values). -/
def utf8Head (b : Nat) (rest : List Nat) : Option (Char × List Nat) :=
  if b < 128 then (mkChar? b).map (fun c => (c, rest))
  else if b < 192 then none
  else if b < 224 then
    match rest with
    | b1 :: rest1 =>
        if 128 ≤ b1 ∧ b1 < 192 then
          if (b - 192) * 64 + (b1 - 128) < 128 then none
          else (mkChar? ((b - 192) * 64 + (b1 - 128))).map (fun c => (c, rest1))
        else none
    | [] => none
  else if b < 240 then
    match rest with
    | b1 :: b2 :: rest2 =>
        if (128 ≤ b1 ∧ b1 < 192) ∧ (128 ≤ b2 ∧ b2 < 192) then
          if (b - 224) * 4096 + (b1 - 128) * 64 + (b2 - 128) < 2048 then none
          else
            (mkChar? ((b - 224) * 4096 + (b1 - 128) * 64 + (b2 - 128))).map
              (fun c => (c, rest2))
        else none
    | _ => none
  else if b < 248 then
    match rest with
    | b1 :: b2 :: b3 :: rest3 =>
        if ((128 ≤ b1 ∧ b1 < 192) ∧ (128 ≤ b2 ∧ b2 < 192)) ∧ (128 ≤ b3 ∧ b3 < 192) then
          if (b - 240) * 262144 + (b1 - 128) * 4096 + (b2 - 128) * 64 + (b3 - 128) < 65536 then
            none
          else
            (mkChar? ((b - 240) * 262144 + (b1 - 128) * 4096 + (b2 - 128) * 64 + (b3 - 128))).map
              (fun c => (c, rest3))
        else none
    | _ => none
  else none

/-- Fuelled UTF-8 decoding loop over `utf8Head`. -/
def utf8DecodeAux : Nat → List Nat → Option (List Char)
  | _, [] => some []
  | 0, _ :: _ => none
  | fuel + 1, b :: rest =>
      match utf8Head b rest with
      | some (c, rest1) => (utf8DecodeAux fuel rest1).map (c :: ·)
      | none => none

/-- UTF-8 decoding of a byte sequence into characters (the length of the
sequence bounds the number of characters, so it serves as fuel). -/
def utf8Decode (l : List Nat) : Option (List Char) := utf8DecodeAux l.length l

theorem utf8Head_bytes (c : Char) (tl : List Nat) :
    utf8Head ((utf8Bytes c).headD 0) ((utf8Bytes c).tail ++ tl) = some (c, tl) := by
  have hv := char_toNat_lt c
  by_cases h1 : c.toNat < 128
  · simp [utf8Head, utf8Bytes, h1, mkChar?_toNat]
  · by_cases h2 : c.toNat < 2048
    · have ha1 : ¬(192 + c.toNat / 64 < 128) := by omega
      have ha2 : ¬(192 + c.toNat / 64 < 192) := by omega
      have ha3 : 192 + c.toNat / 64 < 224 := by omega
      have ha4 : 128 ≤ 128 + c.toNat % 64 ∧ 128 + c.toNat % 64 < 192 := by omega
      have ha5 : (192 + c.toNat / 64 - 192) * 64 + (128 + c.toNat % 64 - 128) = c.toNat := by
        omega
      have hEq : c.toNat / 64 * 64 + c.toNat % 64 = c.toNat := by omega
      simp [utf8Head, utf8Bytes, h1, h2, ha1, ha2, ha3, ha4, ha5, hEq, mkChar?_toNat]
    · by_cases h3 : c.toNat < 65536
      · have ha1 : ¬(224 + c.toNat / 4096 < 128) := by omega
        have ha2 : ¬(224 + c.toNat / 4096 < 192) := by omega
        have ha3 : ¬(224 + c.toNat / 4096 < 224) := by omega
        have ha4 : 224 + c.toNat / 4096 < 240 := by omega
        have ha5 : (128 ≤ 128 + c.toNat / 64 % 64 ∧ 128 + c.toNat / 64 % 64 < 192) ∧
            128 ≤ 128 + c.toNat % 64 ∧ 128 + c.toNat % 64 < 192 := by omega
        have ha6 : (224 + c.toNat / 4096 - 224) * 4096 + (128 + c.toNat / 64 % 64 - 128) * 64 +
            (128 + c.toNat % 64 - 128) = c.toNat := by omega
        have ha7 : ¬((224 + c.toNat / 4096 - 224) * 4096 + (128 + c.toNat / 64 % 64 - 128) * 64 +
            (128 + c.toNat % 64 - 128) < 2048) := by omega
        have hEq : c.toNat / 4096 * 4096 + c.toNat / 64 % 64 * 64 + c.toNat % 64 = c.toNat := by
          omega
        simp [utf8Head, utf8Bytes, h1, h2, h3, ha1, ha2, ha3, ha4, ha5, ha6, ha7, hEq,
          mkChar?_toNat]
      · have ha1 : ¬(240 + c.toNat / 262144 < 128) := by omega
        have ha2 : ¬(240 + c.toNat / 262144 < 192) := by omega
        have ha3 : ¬(240 + c.toNat / 262144 < 224) := by omega
        have ha4 : ¬(240 + c.toNat / 262144 < 240) := by omega
        have ha5 : 240 + c.toNat / 262144 < 248 := by omega
        have ha6 : ((128 ≤ 128 + c.toNat / 4096 % 64 ∧ 128 + c.toNat / 4096 % 64 < 192) ∧
            128 ≤ 128 + c.toNat / 64 % 64 ∧ 128 + c.toNat / 64 % 64 < 192) ∧
            128 ≤ 128 + c.toNat % 64 ∧ 128 + c.toNat % 64 < 192 := by omega
        have ha7 : (240 + c.toNat / 262144 - 240) * 262144 +
            (128 + c.toNat / 4096 % 64 - 128) * 4096 +
            (128 + c.toNat / 64 % 64 - 128) * 64 + (128 + c.toNat % 64 - 128) = c.toNat := by
          omega
        have ha8 : ¬((240 + c.toNat / 262144 - 240) * 262144 +
            (128 + c.toNat / 4096 % 64 - 128) * 4096 +
            (128 + c.toNat / 64 % 64 - 128) * 64 + (128 + c.toNat % 64 - 128) < 65536) := by
          omega
        have hEq : c.toNat / 262144 * 262144 + c.toNat / 4096 % 64 * 4096 +
            c.toNat / 64 % 64 * 64 + c.toNat % 64 = c.toNat := by omega
        simp [utf8Head, utf8Bytes, h1, h2, h3, ha1, ha2, ha3, ha4, ha5, ha6, ha7, ha8, hEq,
          mkChar?_toNat]

theorem utf8Bytes_ne_nil (c : Char) : utf8Bytes c ≠ [] := by
  simp only [utf8Bytes]
  split_ifs <;> simp

theorem utf8DecodeAux_encode : ∀ (cs : List Char) (fuel : Nat),
    (cs.flatMap utf8Bytes).length ≤ fuel → utf8DecodeAux fuel (cs.flatMap utf8Bytes) = some cs
  | [], fuel, _ => by cases fuel <;> rfl
  | c :: cs, fuel, h => by
      rw [List.flatMap_cons]
      cases hbc : utf8Bytes c with
      | nil => exact absurd hbc (utf8Bytes_ne_nil c)
      | cons b bs =>
          have hlen : ((c :: cs).flatMap utf8Bytes).length =
              (utf8Bytes c).length + (cs.flatMap utf8Bytes).length := by
            simp [List.flatMap_cons]
          have hpos : 1 ≤ (utf8Bytes c).length := by rw [hbc]; simp
          cases fuel with
          | zero => exact absurd h (by omega)
          | succ f =>
              have hrec : (cs.flatMap utf8Bytes).length ≤ f := by
                rw [List.flatMap_cons] at h
                simp only [List.length_append] at h
                omega
              have hb : b = (utf8Bytes c).headD 0 := by rw [hbc]; rfl
              have hbs : bs = (utf8Bytes c).tail := by rw [hbc]; rfl
              rw [List.cons_append]
              show utf8DecodeAux (f + 1) (b :: (bs ++ cs.flatMap utf8Bytes)) = some (c :: cs)
              rw [hb, hbs]
              simp only [utf8DecodeAux, utf8Head_bytes c (cs.flatMap utf8Bytes),
                utf8DecodeAux_encode cs f hrec, Option.map_some']

/-- The UTF-8 byte sequence of a string (the model of `Buffer.from(s)`). -/
def strBytes (s : String) : List Nat := s.data.flatMap utf8Bytes

theorem strBytes_lt (s : String) : ∀ b ∈ strBytes s, b < 256 := by
  intro b hb
  simp only [strBytes, List.mem_flatMap] at hb
  obtain ⟨c, _, hbc⟩ := hb
  exact utf8Bytes_lt c b hbc

theorem utf8Decode_flatMap (cs : List Char) :
    utf8Decode (cs.flatMap utf8Bytes) = some cs :=
  utf8DecodeAux_encode cs (cs.flatMap utf8Bytes).length (Nat.le_refl _)

/-- The model of `Buffer.from(s).toString("base64")`: the base64 encoding of
the UTF-8 bytes of `s`. -/
def b64encodeString (s : String) : String := ⟨b64encodeBytes (strBytes s)⟩

/-- Decode a base64 token back to the string whose encoding it is. -/
def b64decodeString (t : String) : Option String :=
  (b64decodeChars t.data).bind fun bs => (utf8Decode bs).map fun cs => ⟨cs⟩

theorem b64decodeString_encodeString (s : String) :
    b64decodeString (b64encodeString s) = some s := by
  show (b64decodeChars (b64encodeBytes (strBytes s))).bind _ = some s
  rw [b64decode_encode _ (strBytes_lt s)]
  show (utf8Decode (strBytes s)).map _ = some s
  rw [strBytes, utf8Decode_flatMap]
  rfl

/-! ### The operations

Each function below is translated line by line from the repository source.
The ambient nondeterminism the code consumes (`ctx`, cookie-derived access
token, `Date.now()`, `Math.random()`, `utils.generateOfflineThreadingID()`,
and the transport round-trip) is passed in explicitly through an environment
record; `hasCb` states whether the caller supplied a callback function. -/

/-- Model of `String.prototype.toUpperCase` as the character-wise ASCII
uppercase map (the reaction names the code compares against are ASCII). -/
def jsToUpper (s : String) : String := ⟨s.data.map Char.toUpper⟩

/-- The reaction table of `reactPost` (`REACTION_TYPES`), in source order. -/
def REACTION_TYPES : List (String × Int) :=
  [("LIKE", 1), ("LOVE", 2), ("CARE", 16), ("HAHA", 4), ("WOW", 3), ("SAD", 7),
    ("ANGRY", 8), ("NONE", 0)]

/-- The `input` object of the `CometUFIFeedbackReactMutation` variables block. -/
structure ReactInput where
  attribution_id_v2 : String
  feedback_id : String
  feedback_reaction : Int
  feedback_source : String
  is_tracking_encrypted : Bool
  tracking : List String
  session_id : String
  actor_id : String
  client_mutation_id : String
  deriving DecidableEq, Repr

/-- The form body of the `reactPost` mutation request (its variables field is
JSON-encoded on the wire; it is kept structured here, which determines the
encoded string). -/
structure ReactForm where
  fb_api_caller_class : String
  fb_api_req_friendly_name : String
  «variables» : ReactInput
  server_timestamps : Bool
  doc_id : String
  deriving DecidableEq, Repr

/-- A posted `reactPost` request: target URL and form body. -/
structure ReactRequest where
  url : String
  form : ReactForm
  deriving DecidableEq, Repr

/-- The result object `reactPost` delivers on success. -/
structure ReactResult where
  success : Bool
  postID : JSVal
  reaction : String
  reactionValue : Int
  message : String
  deriving DecidableEq, Repr

/-- Environment of one `reactPost` call: session context, `Date.now()`,
`Math.floor(Math.random() * 1000000)`, the two fresh
`utils.generateOfflineThreadingID()` tokens (`session_id` then
`client_mutation_id`), and the combined transport / response-validator
round-trip. -/
structure ReactEnv where
  ctx : Ctx
  now : Int
  rand : Int
  sessionID : String
  clientMutationID : String
  transport : Except JSError DecodedResponse
  deriving Repr

/-- Shallow embedding of `reactPost(postID, reactionType, callback)` from
`src/src/deltas/apis/posting/reactPost.js`.  Validation happens outside the
`try` block: a falsy `postID` or `reactionType` is a validation error returned
through the callback; `reactionType.toUpperCase()` on a truthy non-string
raises a `TypeError` before the `try`, so it rejects the async promise without
touching the callback or the logs; an unknown reaction is a validation error
whose message joins `Object.keys(REACTION_TYPES)`. -/
def reactPost (postID reactionType : JSVal) (hasCb : Bool) (env : ReactEnv) :
    OpOutcome ReactRequest ReactResult :=
  if postID.truthy = false then
    earlyValidation hasCb "reactPost" "reactPost: Post ID is required"
  else if reactionType.truthy = false then
    earlyValidation hasCb "reactPost" "reactPost: Reaction type is required"
  else
    match reactionType.asString with
    | none =>
        { caller := .rejected ⟨.typeError, "reactionType.toUpperCase is not a function"⟩
          internal := .pending
          cbCalls := []
          posts := []
          errorLogs := []
          logs := [] }
    | some s =>
        let normalizedReaction := jsToUpper s
        match REACTION_TYPES.lookup normalizedReaction with
        | none =>
            earlyValidation hasCb "reactPost"
              ("reactPost: Invalid reaction type. Must be one of: " ++
                String.intercalate ", " (REACTION_TYPES.map Prod.fst))
        | some reactionValue =>
            let «variables» : ReactInput :=
              { attribution_id_v2 :=
                  "ProfileCometTimelineListViewRoot.react,comet.profile.timeline.list," ++
                    "unexpected," ++ toString env.now ++ "," ++ toString env.rand ++ "," ++
                    env.ctx.userID ++ ",,"
                feedback_id := b64encodeString ("feedback:" ++ postID.toDisplayString)
                feedback_reaction := reactionValue
                feedback_source := "PROFILE"
                is_tracking_encrypted := false
                tracking := []
                session_id := env.sessionID
                actor_id := env.ctx.userID
                client_mutation_id := env.clientMutationID }
            let form : ReactForm :=
              { fb_api_caller_class := "RelayModern"
                fb_api_req_friendly_name := "CometUFIFeedbackReactMutation"
                «variables» := «variables»
                server_timestamps := true
                doc_id := "5803809346330346" }
            let r : ReactRequest := ⟨"https://www.facebook.com/api/graphql/", form⟩
            let result : ReactResult :=
              { success := true
                postID := postID
                reaction := normalizedReaction
                reactionValue := reactionValue
                message :=
                  if reactionValue = 0 then "Reaction removed successfully"
                  else "Reacted with " ++ normalizedReaction ++ " successfully" }
            runTransact hasCb "reactPost" r
              ((if reactionValue = 0 then "Removing reaction from"
                else "Adding " ++ normalizedReaction ++ " to") ++
                " post " ++ postID.toDisplayString)
              env.transport result result.message

/-- The `0` object of the second `profileGuard` variant's variables block. -/
structure GuardInput where
  is_shielded : Bool
  actor_id : JSVal
  client_mutation_id : String
  deriving DecidableEq, Repr

/-- The form body of the second `profileGuard` variant (only the variables block and
`doc_id`). -/
structure GuardForm where
  «variables» : GuardInput
  doc_id : String
  deriving DecidableEq, Repr

/-- A posted request of the second `profileGuard` variant: URL, form, and the
optional `Authorization: OAuth <token>` header from the cookie scan. -/
structure GuardRequest where
  url : String
  form : GuardForm
  authHeader : Option String
  deriving DecidableEq, Repr

/-- The result object the second `profileGuard` variant delivers on success. -/
structure GuardResult where
  success : Bool
  enabled : Bool
  userID : JSVal
  message : String
  deriving DecidableEq, Repr

/-- Environment of one call of the second `profileGuard` variant: session
context, access token found in the cookie jar (if any), fresh
`utils.generateOfflineThreadingID()`, and the transport round-trip. -/
structure GuardEnv where
  ctx : Ctx
  accessToken : Option String
  clientMutationID : String
  transport : Except JSError DecodedResponse
  deriving Repr

/-- Shallow embedding of the second (async) `profileGuard(enable, userID,
callback)` variant.  A function in the `userID` slot is shifted into the
callback slot and `userID` becomes `null`; a non-boolean `enable` and a falsy
target user are validation errors returned through the callback. -/
def profileGuardV2 (enable userID : JSVal) (cbGiven : Bool) (env : GuardEnv) :
    OpOutcome GuardRequest GuardResult :=
  let userID1 := if userID.isFunction then JSVal.null else userID
  let hasCb := if userID.isFunction then true else cbGiven
  match enable.asBool with
  | some b =>
      let targetUserID := if userID1.truthy then userID1 else .str env.ctx.userID
      if targetUserID.truthy = false then
        earlyValidation hasCb "profileGuard"
          "profileGuard: User ID not found. Please ensure you are logged in."
      else
        let form : GuardForm :=
          { «variables» :=
              { is_shielded := b
                actor_id := targetUserID
                client_mutation_id := env.clientMutationID }
            doc_id := "1477043292367183" }
        let r : GuardRequest := ⟨"https://graph.facebook.com/graphql", form, env.accessToken⟩
        let result : GuardResult :=
          { success := true
            enabled := b
            userID := targetUserID
            message :=
              "Profile picture guard " ++ (if b then "enabled" else "disabled") ++
                " successfully" }
        runTransact hasCb "profileGuard" r
          ((if b then "Enabling" else "Disabling") ++ " profile picture guard for user " ++
            targetUserID.toDisplayString)
          env.transport result result.message
  | none =>
      earlyValidation hasCb "profileGuard"
        "profileGuard: First parameter must be a boolean (true to enable, false to disable)"

/-- The `input` object of the `ProfileCometSetProfileLockMutation` variables block:
`user_id` is the (possibly explicit) target and `actor_id` is always the
session user. -/
structure LockInput where
  is_locked : Bool
  user_id : JSVal
  actor_id : String
  client_mutation_id : String
  deriving DecidableEq, Repr

/-- The form body of the `lockProfile` mutation request. -/
structure LockForm where
  fb_api_caller_class : String
  fb_api_req_friendly_name : String
  «variables» : LockInput
  server_timestamps : Bool
  doc_id : String
  deriving DecidableEq, Repr

/-- A posted `lockProfile` request. -/
structure LockRequest where
  url : String
  form : LockForm
  deriving DecidableEq, Repr

/-- The result object `lockProfile` delivers on success. -/
structure LockResult where
  success : Bool
  locked : Bool
  userID : JSVal
  message : String
  note : String
  deriving DecidableEq, Repr

/-- Environment of one `lockProfile` call. -/
structure LockEnv where
  ctx : Ctx
  clientMutationID : String
  transport : Except JSError DecodedResponse
  deriving Repr

/-- Shallow embedding of `lockProfile(enable, userID, callback)`, identical in
shape to the second `profileGuard` variant but with the
`is_locked`/`user_id`/`actor_id` payload, its own document id, and a result
carrying a fixed `note`. -/
def lockProfile (enable userID : JSVal) (cbGiven : Bool) (env : LockEnv) :
    OpOutcome LockRequest LockResult :=
  let userID1 := if userID.isFunction then JSVal.null else userID
  let hasCb := if userID.isFunction then true else cbGiven
  match enable.asBool with
  | some b =>
      let targetUserID := if userID1.truthy then userID1 else .str env.ctx.userID
      if targetUserID.truthy = false then
        earlyValidation hasCb "lockProfile"
          "lockProfile: User ID not found. Please ensure you are logged in."
      else
        let form : LockForm :=
          { fb_api_caller_class := "RelayModern"
            fb_api_req_friendly_name := "ProfileCometSetProfileLockMutation"
            «variables» :=
              { is_locked := b
                user_id := targetUserID
                actor_id := env.ctx.userID
                client_mutation_id := env.clientMutationID }
            server_timestamps := true
            doc_id := "5552698734782825" }
        let r : LockRequest := ⟨"https://www.facebook.com/api/graphql/", form⟩
        let result : LockResult :=
          { success := true
            locked := b
            userID := targetUserID
            message := "Profile " ++ (if b then "locked" else "unlocked") ++ " successfully"
            note :=
              if b then
                "Your profile is now locked. Only friends can see your posts and photos."
              else
                "Your profile is now unlocked. Your privacy settings control who can " ++
                  "see your content." }
        runTransact hasCb "lockProfile" r
          ((if b then "Locking" else "Unlocking") ++ " profile for user " ++
            targetUserID.toDisplayString)
          env.transport result result.message
  | none =>
      earlyValidation hasCb "lockProfile"
        "lockProfile: First parameter must be a boolean (true to lock, false to unlock)"

/-- The `input` object of the first `profileGuard` variant's variables block. -/
structure GuardV1Input where
  is_shielded : Bool
  actor_id : String
  client_mutation_id : String
  deriving DecidableEq, Repr

/-- The variables block of the first `profileGuard` variant (`input` plus `scale`). -/
structure GuardV1Variables where
  input : GuardV1Input
  scale : Int
  deriving DecidableEq, Repr

/-- The form body of the first `profileGuard` variant. -/
structure GuardV1Form where
  av : String
  «variables» : GuardV1Variables
  doc_id : String
  fb_api_req_friendly_name : String
  fb_api_caller_class : String
  deriving DecidableEq, Repr

/-- A posted request of the first `profileGuard` variant. -/
structure GuardV1Request where
  url : String
  form : GuardV1Form
  deriving DecidableEq, Repr

/-- Observable outcome of the first (promise-chain) `profileGuard` variant: a
synchronously thrown value if any (it escapes to the caller as an exception,
not through the promise), the settlement of the returned promise chain, the
callback invocations (`none` is `callback()` with no arguments), the posted
requests and the `utils.error` entries.  The chain ends in `.catch`, so it
never rejects: it fulfills with the callback's return value. -/
structure V1Outcome where
  thrown : Option JSError
  promise : Settle Unit
  cbCalls : List (Option JSError)
  posts : List GuardV1Request
  errorLogs : List (String × String)
  deriving DecidableEq, Repr

/-- Shallow embedding of the first `profileGuard` variant, whose signature is
`(guard, callback)` with an empty function as the default callback.  A
non-boolean `guard` throws a plain object synchronously; the
response check looks only at the `err` field of the decoded response (not
`error`/`errors`), and both the error path and the success path fulfill the
chain with the callback's return value (`undefined` for the default callback,
which ignores its arguments). -/
def profileGuardV1 (guard : JSVal) (hasCb : Bool) (ctx : Ctx)
    (transport : Except JSError DecodedResponse) : V1Outcome :=
  match guard with
  | .bool b =>
      let form : GuardV1Form :=
        { av := ctx.userID
          «variables» :=
            { input :=
                { is_shielded := b
                  actor_id := ctx.userID
                  client_mutation_id := "1" }
              scale := 1 }
          doc_id := "1477043292367183"
          fb_api_req_friendly_name := "IsShieldedSetMutation"
          fb_api_caller_class := "IsShieldedSetMutation" }
      let r : GuardV1Request := ⟨"https://www.facebook.com/api/graphql", form⟩
      match transport with
      | .error e =>
          { thrown := none
            promise := if hasCb then .fulfilledCbRet else .fulfilledUndef
            cbCalls := [some e]
            posts := [r]
            errorLogs := [("setProfileGuard", e.message)] }
      | .ok resp =>
          if resp.err.truthy then
            let e : JSError := ⟨.thrownObject, resp.err.toDisplayString⟩
            { thrown := none
              promise := if hasCb then .fulfilledCbRet else .fulfilledUndef
              cbCalls := [some e]
              posts := [r]
              errorLogs := [("setProfileGuard", e.message)] }
          else
            { thrown := none
              promise := if hasCb then .fulfilledCbRet else .fulfilledUndef
              cbCalls := [none]
              posts := [r]
              errorLogs := [] }
  | _ =>
      { thrown := some ⟨.thrownObject, "Please pass a boolean as a second argument."⟩
        promise := .pending
        cbCalls := []
        posts := []
        errorLogs := [] }

/-! ### Helper lemmas and concrete fixtures -/

theorem runTransact_posts (hasCb : Bool) (tag : String) (r : req) (logMsg : String)
    (tr : Except JSError DecodedResponse) (result : ρ) (slog : String) :
    (runTransact hasCb tag r logMsg tr result slog).posts = [r] := by
  cases tr with
  | error e => rfl
  | ok resp =>
      by_cases h : (resp.error.truthy || resp.errors.truthy) = true
      · simp [runTransact, h]
      · simp at h
        simp [runTransact, h]

theorem runTransact_remote (hasCb : Bool) (tag : String) (r : req) (logMsg : String)
    (resp : DecodedResponse) (hresp : (resp.error.truthy || resp.errors.truthy) = true)
    (result : ρ) (slog : String) :
    runTransact hasCb tag r logMsg (.ok resp) result slog =
      { caller := if hasCb then .pending else .rejected ⟨.remote, remoteErrMsg resp⟩
        internal := if hasCb then .pending else .rejected ⟨.remote, remoteErrMsg resp⟩
        cbCalls := [(some ⟨.remote, remoteErrMsg resp⟩, none)]
        posts := [r]
        errorLogs := [(tag, remoteErrMsg resp)]
        logs := [logMsg] } := by
  simp [runTransact, hresp]

theorem runTransact_success (hasCb : Bool) (tag : String) (r : req) (logMsg : String)
    (resp : DecodedResponse) (he : resp.error.truthy = false) (hes : resp.errors.truthy = false)
    (result : ρ) (slog : String) :
    runTransact hasCb tag r logMsg (.ok resp) result slog =
      { caller := if hasCb then .pending else .fulfilledRes result
        internal := if hasCb then .pending else .fulfilledRes result
        cbCalls := [(none, some result)]
        posts := [r]
        errorLogs := []
        logs := [logMsg, slog] } := by
  simp [runTransact, he, hes]

theorem truthy_str (s : String) : (JSVal.str s).truthy = (s != "") := rfl

theorem truthy_str_of_ne {s : String} (h : s ≠ "") : (JSVal.str s).truthy = true := by
  simp [JSVal.truthy, h]

/-- A session context fixture. -/
def exCtx : Ctx := ⟨"100"⟩

/-- A decoded response with no `err`, `error` or `errors` field. -/
def respOk : DecodedResponse := ⟨.undef, .undef, .undef⟩

/-- A decoded response whose `errors` field is set. -/
def respErrs : DecodedResponse := ⟨.undef, .undef, .str "boom"⟩

/-- A `reactPost` environment with a successful transport round-trip. -/
def exREnv : ReactEnv := ⟨exCtx, 5, 6, "S", "M", .ok respOk⟩

/-- A `reactPost` environment whose decoded response carries `errors`. -/
def exREnvErr : ReactEnv := ⟨exCtx, 5, 6, "S", "M", .ok respErrs⟩

/-- A `profileGuard` (second variant) environment with a successful round-trip. -/
def exGEnv : GuardEnv := ⟨exCtx, none, "M", .ok respOk⟩

/-- A `profileGuard` (second variant) environment whose response carries `errors`. -/
def exGEnvErr : GuardEnv := ⟨exCtx, none, "M", .ok respErrs⟩

/-- A `lockProfile` environment with a successful round-trip. -/
def exLEnv : LockEnv := ⟨exCtx, "M", .ok respOk⟩

/-- A `lockProfile` environment whose decoded response carries `errors`. -/
def exLEnvErr : LockEnv := ⟨exCtx, "M", .ok respErrs⟩

/-! ### The claims -/

/-- C4: for every postID, `reactPost(postID, "love")` and
`reactPost(postID, "LOVE")` run identically — the reaction name is
canonicalized to uppercase `"LOVE"`, so the two calls build the same mutation
request (given the same ambient nondeterminism) — and every request either
call posts carries the integer reaction code 2. -/
theorem C4_reactPost_case_insensitive (pid : String) (hasCb : Bool) (env : ReactEnv) :
    reactPost (.str pid) (.str "love") hasCb env =
      reactPost (.str pid) (.str "LOVE") hasCb env ∧
    ((reactPost (.str pid) (.str "love") hasCb env).posts.all
      (fun r => r.form.«variables».feedback_reaction == 2)) = true := by
  constructor
  · rfl
  · by_cases hp : pid = ""
    · subst hp; rfl
    · simp [reactPost, truthy_str_of_ne hp, JSVal.asString,
        show (JSVal.str "love").truthy = true from rfl,
        show REACTION_TYPES.lookup (jsToUpper "love") = some 2 from rfl,
        runTransact_posts]

/-- C5 counterexample: the empty string does not (case-insensitively) match the
reaction enumeration, yet `reactPost` fails with the "Reaction type is
required" validation message, which does not enumerate the valid options. -/
theorem C5_counterexample :
    REACTION_TYPES.lookup (jsToUpper "") = none ∧
    (reactPost (.str "1") (.str "") false exREnv).cbCalls =
      [(some ⟨.validation, "reactPost: Reaction type is required"⟩, none)] ∧
    "reactPost: Reaction type is required" ≠
      "reactPost: Invalid reaction type. Must be one of: LIKE, LOVE, CARE, HAHA, WOW, SAD, ANGRY, NONE" := by
  refine ⟨rfl, rfl, by decide⟩

/-- C5 (amended): for every nonempty reactionType string that does not
case-insensitively match the reaction enumeration, `reactPost` fails with a
`ValidationError` whose message enumerates all seven valid reaction names plus
`NONE`, and no request is issued.  (The empty string instead fails with the
"Reaction type is required" message, which does not enumerate the options.) -/
theorem C5_invalid_reaction (pid s : String) (hp : pid ≠ "") (hs : s ≠ "")
    (hv : REACTION_TYPES.lookup (jsToUpper s) = none) (hasCb : Bool) (env : ReactEnv) :
    (reactPost (.str pid) (.str s) hasCb env).cbCalls =
      [(some ⟨.validation,
        "reactPost: Invalid reaction type. Must be one of: LIKE, LOVE, CARE, HAHA, WOW, SAD, ANGRY, NONE"⟩,
        none)] ∧
    (reactPost (.str pid) (.str s) hasCb env).posts = [] := by
  simp [reactPost, truthy_str_of_ne hp, truthy_str_of_ne hs, JSVal.asString, hv,
    earlyValidation]
  rfl

/-- Witness for C5: the amended theorem applied to `reactPost("1", "BOGUS")`. -/
theorem C5_witness :
    ("1" : String) ≠ "" ∧ ("BOGUS" : String) ≠ "" ∧
    REACTION_TYPES.lookup (jsToUpper "BOGUS") = none ∧
    ((reactPost (.str "1") (.str "BOGUS") false exREnv).cbCalls =
      [(some ⟨.validation,
        "reactPost: Invalid reaction type. Must be one of: LIKE, LOVE, CARE, HAHA, WOW, SAD, ANGRY, NONE"⟩,
        none)] ∧
    (reactPost (.str "1") (.str "BOGUS") false exREnv).posts = []) :=
  ⟨by decide, by decide, rfl,
    C5_invalid_reaction "1" "BOGUS" (by decide) (by decide) rfl false exREnv⟩

/-- C6: for every call `lockProfile(true, U)` whose explicit target `U` differs
from the session user, the single posted mutation payload embeds `user_id`
equal to `U` and `actor_id` equal to the session user, two distinct fields
with distinct values. -/
theorem C6_lockProfile_user_actor (u : String) (hu : u ≠ "") (cbGiven : Bool)
    (env : LockEnv) (hne : u ≠ env.ctx.userID) :
    (lockProfile (.bool true) (.str u) cbGiven env).posts.length = 1 ∧
    ((lockProfile (.bool true) (.str u) cbGiven env).posts.all
      (fun r => r.form.«variables».user_id == JSVal.str u &&
        r.form.«variables».actor_id == env.ctx.userID &&
        r.form.«variables».user_id != JSVal.str r.form.«variables».actor_id)) = true := by
  constructor
  · simp [lockProfile, JSVal.isFunction, JSVal.getType, JSVal.asBool, truthy_str_of_ne hu,
      runTransact_posts]
  · simp [lockProfile, JSVal.isFunction, JSVal.getType, JSVal.asBool, truthy_str_of_ne hu,
      runTransact_posts, hne]

/-- Witness for C6 at a concrete target user distinct from the session user. -/
theorem C6_witness :
    ("100012345678" : String) ≠ "" ∧ ("100012345678" : String) ≠ exLEnv.ctx.userID ∧
    ((lockProfile (.bool true) (.str "100012345678") false exLEnv).posts.length = 1 ∧
    ((lockProfile (.bool true) (.str "100012345678") false exLEnv).posts.all
      (fun r => r.form.«variables».user_id == JSVal.str "100012345678" &&
        r.form.«variables».actor_id == exLEnv.ctx.userID &&
        r.form.«variables».user_id != JSVal.str r.form.«variables».actor_id)) = true) :=
  ⟨by decide, by decide,
    C6_lockProfile_user_actor "100012345678" (by decide) false exLEnv (by decide)⟩

/-- C7: every successful `reactPost` call delivers
`(success := true, postID, reaction (canonical uppercase name), reactionValue
(the fixed integer code), message)` through the callback, with the message
stating removal when the code is 0 and "Reacted with name" otherwise; without
a caller callback the promise fulfills with the same result. -/
theorem C7_reactPost_success (pid s : String) (v : Int) (hp : pid ≠ "") (hs : s ≠ "")
    (hv : REACTION_TYPES.lookup (jsToUpper s) = some v) (hasCb : Bool) (env : ReactEnv)
    (resp : DecodedResponse) (htr : env.transport = .ok resp)
    (he : resp.error.truthy = false) (hes : resp.errors.truthy = false) :
    (reactPost (.str pid) (.str s) hasCb env).cbCalls =
      [(none, some ⟨true, .str pid, jsToUpper s, v,
        if v = 0 then "Reaction removed successfully"
        else "Reacted with " ++ jsToUpper s ++ " successfully"⟩)] ∧
    (hasCb = false →
      (reactPost (.str pid) (.str s) hasCb env).internal =
        .fulfilledRes ⟨true, .str pid, jsToUpper s, v,
          if v = 0 then "Reaction removed successfully"
          else "Reacted with " ++ jsToUpper s ++ " successfully"⟩) := by
  constructor
  · simp [reactPost, truthy_str_of_ne hp, truthy_str_of_ne hs, JSVal.asString, hv, htr,
      runTransact_success hasCb "reactPost" _ _ resp he hes]
  · intro hcb
    subst hcb
    simp [reactPost, truthy_str_of_ne hp, truthy_str_of_ne hs, JSVal.asString, hv, htr,
      runTransact_success false "reactPost" _ _ resp he hes]

/-- Witness for C7: a successful `reactPost("123", "love")` call. -/
theorem C7_witness :
    ("123" : String) ≠ "" ∧ ("love" : String) ≠ "" ∧
    REACTION_TYPES.lookup (jsToUpper "love") = some 2 ∧
    exREnv.transport = .ok respOk ∧
    ((reactPost (.str "123") (.str "love") false exREnv).cbCalls =
      [(none, some ⟨true, .str "123", jsToUpper "love", 2,
        if (2 : Int) = 0 then "Reaction removed successfully"
        else "Reacted with " ++ jsToUpper "love" ++ " successfully"⟩)] ∧
    (false = false →
      (reactPost (.str "123") (.str "love") false exREnv).internal =
        .fulfilledRes ⟨true, .str "123", jsToUpper "love", 2,
          if (2 : Int) = 0 then "Reaction removed successfully"
          else "Reacted with " ++ jsToUpper "love" ++ " successfully"⟩)) :=
  ⟨by decide, by decide, rfl, rfl,
    C7_reactPost_success "123" "love" 2 (by decide) (by decide) rfl false exREnv respOk
      rfl rfl rfl⟩

/-- C8: the feedback identifier `reactPost` places in every request it posts is
the base64 encoding of `"feedback:" ++ postID`, and that encoding is
reversible: decoding the token recovers exactly the fixed prefix `"feedback:"`
followed by the postID. -/
theorem C8_feedback_token_roundtrip (pid : String) (hasCb : Bool) (env : ReactEnv) :
    ((reactPost (.str pid) (.str "LIKE") hasCb env).posts.all
      (fun r => r.form.«variables».feedback_id ==
        b64encodeString ("feedback:" ++ pid))) = true ∧
    b64decodeString (b64encodeString ("feedback:" ++ pid)) = some ("feedback:" ++ pid) := by
  constructor
  · by_cases hp : pid = ""
    · subst hp; rfl
    · simp [reactPost, truthy_str_of_ne hp, JSVal.asString, JSVal.toDisplayString,
        show (JSVal.str "LIKE").truthy = true from rfl,
        show REACTION_TYPES.lookup (jsToUpper "LIKE") = some 1 from rfl,
        runTransact_posts]
  · exact b64decodeString_encodeString ("feedback:" ++ pid)

/-- C9 (implicit): in `reactPost`, the second `profileGuard` variant and
`lockProfile`, when no callback is supplied and a local validation check fails,
the early `return callback(error)` returns the default callback's return value
(`undefined`) instead of the internal promise wired to reject, so the promise
the caller receives fulfills with `undefined` while the internal promise
rejects with the `ValidationError`. -/
theorem C9_validation_fulfills_with_undefined
    (postID rt : JSVal) (hpid : postID.truthy = false) (renv : ReactEnv)
    (enable gu : JSVal) (hnb : enable.asBool = none) (hfn : gu.isFunction = false)
    (genv : GuardEnv) (lenv : LockEnv) :
    ((reactPost postID rt false renv).caller = .fulfilledUndef ∧
      (reactPost postID rt false renv).internal =
        .rejected ⟨.validation, "reactPost: Post ID is required"⟩) ∧
    ((profileGuardV2 enable gu false genv).caller = .fulfilledUndef ∧
      (profileGuardV2 enable gu false genv).internal =
        .rejected ⟨.validation,
          "profileGuard: First parameter must be a boolean (true to enable, false to disable)"⟩) ∧
    ((lockProfile enable gu false lenv).caller = .fulfilledUndef ∧
      (lockProfile enable gu false lenv).internal =
        .rejected ⟨.validation,
          "lockProfile: First parameter must be a boolean (true to lock, false to unlock)"⟩) := by
  refine ⟨⟨?_, ?_⟩, ⟨?_, ?_⟩, ⟨?_, ?_⟩⟩ <;>
    simp [reactPost, profileGuardV2, lockProfile, hpid, hnb, hfn, earlyValidation]

/-- Witness for C9: missing post id, and the string `"yes"` as the boolean of
the two profile operations, with no callback anywhere. -/
theorem C9_witness :
    (JSVal.undef).truthy = false ∧ (JSVal.str "yes").asBool = none ∧
    (JSVal.null).isFunction = false ∧
    (((reactPost .undef (.str "LIKE") false exREnv).caller = .fulfilledUndef ∧
      (reactPost .undef (.str "LIKE") false exREnv).internal =
        .rejected ⟨.validation, "reactPost: Post ID is required"⟩) ∧
    ((profileGuardV2 (.str "yes") .null false exGEnv).caller = .fulfilledUndef ∧
      (profileGuardV2 (.str "yes") .null false exGEnv).internal =
        .rejected ⟨.validation,
          "profileGuard: First parameter must be a boolean (true to enable, false to disable)"⟩) ∧
    ((lockProfile (.str "yes") .null false exLEnv).caller = .fulfilledUndef ∧
      (lockProfile (.str "yes") .null false exLEnv).internal =
        .rejected ⟨.validation,
          "lockProfile: First parameter must be a boolean (true to lock, false to unlock)"⟩)) :=
  ⟨rfl, rfl, rfl,
    C9_validation_fulfills_with_undefined .undef (.str "LIKE") rfl exREnv
      (.str "yes") .null rfl rfl exGEnv exLEnv⟩

/-- C10 (implicit): for every truthy non-string reactionType, `reactPost`
raises a `TypeError` from `reactionType.toUpperCase()` before the `try` block:
the async promise rejects, while the callback is never invoked, nothing is
posted and no diagnostic log entry is written. -/
theorem C10_nonstring_reaction_typeerror (postID rt : JSVal) (hp : postID.truthy = true)
    (ht : rt.truthy = true) (hs : rt.isString = false) (hasCb : Bool) (env : ReactEnv) :
    reactPost postID rt hasCb env =
      { caller := .rejected ⟨.typeError, "reactionType.toUpperCase is not a function"⟩
        internal := .pending
        cbCalls := []
        posts := []
        errorLogs := []
        logs := [] } := by
  have ha : rt.asString = none := by
    cases rt <;> simp_all [JSVal.asString, JSVal.isString]
  simp [reactPost, hp, ht, ha]

/-- Witness for C10: the number 2 as reactionType. -/
theorem C10_witness :
    (JSVal.str "1").truthy = true ∧ (JSVal.num 2).truthy = true ∧
    (JSVal.num 2).isString = false ∧
    reactPost (.str "1") (.num 2) false exREnv =
      { caller := .rejected ⟨.typeError, "reactionType.toUpperCase is not a function"⟩
        internal := .pending
        cbCalls := []
        posts := []
        errorLogs := []
        logs := [] } :=
  ⟨rfl, by decide, rfl,
    C10_nonstring_reaction_typeerror (.str "1") (.num 2) rfl (by decide) rfl false exREnv⟩

/-- C1 counterexample: on a decoded response whose `errors` field is set (and
`err` is not), the first `profileGuard` variant — which checks only `err` —
does not fail at all: it invokes the callback with no error, fulfills its
promise, and logs nothing. -/
theorem C1_counterexample :
    respErrs.errors.truthy = true ∧
    (profileGuardV1 (.bool true) false exCtx (.ok respErrs)).thrown = none ∧
    (profileGuardV1 (.bool true) false exCtx (.ok respErrs)).cbCalls = [none] ∧
    (profileGuardV1 (.bool true) false exCtx (.ok respErrs)).promise = .fulfilledUndef ∧
    (profileGuardV1 (.bool true) false exCtx (.ok respErrs)).errorLogs = [] :=
  ⟨rfl, rfl, rfl, rfl, rfl⟩

/-- C1 (amended): for `reactPost`, the second `profileGuard` variant and
`lockProfile`, a decoded response whose `error` or `errors` field is truthy
makes the operation deliver a `RemoteError` carrying the server-provided
message through the callback (and reject the promise when no callback is
supplied), never a `success := true` result.  The first `profileGuard` variant
checks only the `err` field and treats such a response as success. -/
theorem C1_remote_error
    (resp : DecodedResponse) (hresp : (resp.error.truthy || resp.errors.truthy) = true)
    (pid s : String) (v : Int) (hp : pid ≠ "") (hs : s ≠ "")
    (hv : REACTION_TYPES.lookup (jsToUpper s) = some v)
    (b : Bool) (u : String) (hu : u ≠ "") (hasCb : Bool)
    (renv : ReactEnv) (hrt : renv.transport = .ok resp)
    (genv : GuardEnv) (hgt : genv.transport = .ok resp)
    (lenv : LockEnv) (hlt : lenv.transport = .ok resp) :
    ((reactPost (.str pid) (.str s) hasCb renv).cbCalls =
        [(some ⟨.remote, remoteErrMsg resp⟩, none)] ∧
      (reactPost (.str pid) (.str s) hasCb renv).caller =
        (if hasCb then Settle.pending else .rejected ⟨.remote, remoteErrMsg resp⟩)) ∧
    ((profileGuardV2 (.bool b) (.str u) hasCb genv).cbCalls =
        [(some ⟨.remote, remoteErrMsg resp⟩, none)] ∧
      (profileGuardV2 (.bool b) (.str u) hasCb genv).caller =
        (if hasCb then Settle.pending else .rejected ⟨.remote, remoteErrMsg resp⟩)) ∧
    ((lockProfile (.bool b) (.str u) hasCb lenv).cbCalls =
        [(some ⟨.remote, remoteErrMsg resp⟩, none)] ∧
      (lockProfile (.bool b) (.str u) hasCb lenv).caller =
        (if hasCb then Settle.pending else .rejected ⟨.remote, remoteErrMsg resp⟩)) := by
  refine ⟨⟨?_, ?_⟩, ⟨?_, ?_⟩, ⟨?_, ?_⟩⟩ <;>
    simp [reactPost, profileGuardV2, lockProfile, truthy_str_of_ne hp, truthy_str_of_ne hs,
      truthy_str_of_ne hu, JSVal.asString, JSVal.asBool, JSVal.isFunction, JSVal.getType,
      hv, hrt, hgt, hlt, hresp, runTransact_remote]

/-- Witness for C1: a response with `errors := "boom"` rejects all three async
operations with the remote message. -/
theorem C1_witness :
    (respErrs.error.truthy || respErrs.errors.truthy) = true ∧
    ("1" : String) ≠ "" ∧ ("LIKE" : String) ≠ "" ∧
    REACTION_TYPES.lookup (jsToUpper "LIKE") = some 1 ∧ ("7" : String) ≠ "" ∧
    (((reactPost (.str "1") (.str "LIKE") false exREnvErr).cbCalls =
        [(some ⟨.remote, remoteErrMsg respErrs⟩, none)] ∧
      (reactPost (.str "1") (.str "LIKE") false exREnvErr).caller =
        (if false then Settle.pending else .rejected ⟨.remote, remoteErrMsg respErrs⟩)) ∧
    ((profileGuardV2 (.bool true) (.str "7") false exGEnvErr).cbCalls =
        [(some ⟨.remote, remoteErrMsg respErrs⟩, none)] ∧
      (profileGuardV2 (.bool true) (.str "7") false exGEnvErr).caller =
        (if false then Settle.pending else .rejected ⟨.remote, remoteErrMsg respErrs⟩)) ∧
    ((lockProfile (.bool true) (.str "7") false exLEnvErr).cbCalls =
        [(some ⟨.remote, remoteErrMsg respErrs⟩, none)] ∧
      (lockProfile (.bool true) (.str "7") false exLEnvErr).caller =
        (if false then Settle.pending else .rejected ⟨.remote, remoteErrMsg respErrs⟩))) :=
  ⟨rfl, by decide, by decide, rfl, by decide,
    C1_remote_error respErrs rfl "1" "LIKE" 1 (by decide) (by decide) rfl true "7"
      (by decide) false exREnvErr rfl exGEnvErr rfl exLEnvErr rfl⟩

/-- C2 counterexample: called with the non-boolean `"yes"`, the first
`profileGuard` variant throws a plain object synchronously — the error is not
delivered through the callback or a rejected promise — although the transport
is indeed never invoked. -/
theorem C2_counterexample :
    (profileGuardV1 (.str "yes") false exCtx (.ok respOk)).thrown =
      some ⟨.thrownObject, "Please pass a boolean as a second argument."⟩ ∧
    (profileGuardV1 (.str "yes") false exCtx (.ok respOk)).cbCalls = [] ∧
    (profileGuardV1 (.str "yes") false exCtx (.ok respOk)).posts = [] :=
  ⟨rfl, rfl, rfl⟩

/-- C2 (amended): for every non-boolean first argument, the second
`profileGuard` variant fails with a `ValidationError` delivered via the
callback (never thrown) and never posts; the first variant also never posts,
but it throws a plain object synchronously instead of using the callback. -/
theorem C2_nonboolean_guard (enable userID : JSVal) (hnb : enable.asBool = none)
    (cbGiven : Bool) (env : GuardEnv)
    (guard : JSVal) (hgb : guard.asBool = none) (hasCb : Bool) (ctx : Ctx)
    (tr : Except JSError DecodedResponse) :
    ((profileGuardV2 enable userID cbGiven env).cbCalls =
        [(some ⟨.validation,
          "profileGuard: First parameter must be a boolean (true to enable, false to disable)"⟩,
          none)] ∧
      (profileGuardV2 enable userID cbGiven env).posts = []) ∧
    ((profileGuardV1 guard hasCb ctx tr).thrown =
        some ⟨.thrownObject, "Please pass a boolean as a second argument."⟩ ∧
      (profileGuardV1 guard hasCb ctx tr).posts = [] ∧
      (profileGuardV1 guard hasCb ctx tr).cbCalls = []) := by
  refine ⟨⟨?_, ?_⟩, ?_⟩
  · simp [profileGuardV2, hnb, earlyValidation]
  · simp [profileGuardV2, hnb, earlyValidation]
  · cases guard <;> simp_all [profileGuardV1, JSVal.asBool]

/-- Witness for C2: the string `"yes"` as the boolean argument of both
variants. -/
theorem C2_witness :
    (JSVal.str "yes").asBool = none ∧
    (((profileGuardV2 (.str "yes") .undef false exGEnv).cbCalls =
        [(some ⟨.validation,
          "profileGuard: First parameter must be a boolean (true to enable, false to disable)"⟩,
          none)] ∧
      (profileGuardV2 (.str "yes") .undef false exGEnv).posts = []) ∧
    ((profileGuardV1 (.str "yes") false exCtx (.ok respOk)).thrown =
        some ⟨.thrownObject, "Please pass a boolean as a second argument."⟩ ∧
      (profileGuardV1 (.str "yes") false exCtx (.ok respOk)).posts = [] ∧
      (profileGuardV1 (.str "yes") false exCtx (.ok respOk)).cbCalls = [])) :=
  ⟨rfl,
    C2_nonboolean_guard (.str "yes") .undef rfl false exGEnv (.str "yes") rfl false exCtx
      (.ok respOk)⟩

/-- C3 counterexample: `reactPost` does not treat a function in its second
positional slot as the callback — the call raises a `TypeError` that rejects
the async promise, the callback contract is never used and nothing is posted. -/
theorem C3_counterexample :
    (reactPost (.str "123") .func false exREnv).cbCalls = [] ∧
    (reactPost (.str "123") .func false exREnv).caller =
      .rejected ⟨.typeError, "reactionType.toUpperCase is not a function"⟩ ∧
    (reactPost (.str "123") .func false exREnv).posts = [] :=
  ⟨rfl, rfl, rfl⟩

/-- C3 (amended): the second `profileGuard` variant and `lockProfile` treat a
function in the second positional slot as the callback (it receives the
result, and the internal promise is left to the callback, staying pending) and
default the omitted `userID` to the session's current user, both in the posted
payload and in the echoed result; `reactPost` performs no such detection — a
function in its second slot is used as the reaction type and raises a
`TypeError` (see the counterexample). -/
theorem C3_second_slot_callback (b : Bool) (cbGiven : Bool)
    (resp : DecodedResponse) (he : resp.error.truthy = false) (hes : resp.errors.truthy = false)
    (genv : GuardEnv) (hgu : genv.ctx.userID ≠ "") (hgt : genv.transport = .ok resp)
    (lenv : LockEnv) (hlu : lenv.ctx.userID ≠ "") (hlt : lenv.transport = .ok resp) :
    ((profileGuardV2 (.bool b) .func cbGiven genv).internal = .pending ∧
      (profileGuardV2 (.bool b) .func cbGiven genv).cbCalls =
        [(none, some ⟨true, b, .str genv.ctx.userID,
          "Profile picture guard " ++ (if b then "enabled" else "disabled") ++
            " successfully"⟩)] ∧
      ((profileGuardV2 (.bool b) .func cbGiven genv).posts.all
        (fun r => r.form.«variables».actor_id == JSVal.str genv.ctx.userID)) = true) ∧
    ((lockProfile (.bool b) .func cbGiven lenv).internal = .pending ∧
      (lockProfile (.bool b) .func cbGiven lenv).cbCalls =
        [(none, some ⟨true, b, .str lenv.ctx.userID,
          "Profile " ++ (if b then "locked" else "unlocked") ++ " successfully",
          if b then
            "Your profile is now locked. Only friends can see your posts and photos."
          else
            "Your profile is now unlocked. Your privacy settings control who can " ++
              "see your content."⟩)] ∧
      ((lockProfile (.bool b) .func cbGiven lenv).posts.all
        (fun r => r.form.«variables».user_id == JSVal.str lenv.ctx.userID)) = true) := by
  refine ⟨⟨?_, ?_, ?_⟩, ⟨?_, ?_, ?_⟩⟩ <;>
    simp [profileGuardV2, lockProfile, JSVal.isFunction, JSVal.getType, JSVal.asBool,
      show JSVal.null.truthy = false from rfl, truthy_str_of_ne hgu, truthy_str_of_ne hlu,
      hgu, hlu, hgt, hlt, he, hes, runTransact_success, runTransact_posts]

/-- Witness for C3: a function as second argument of both profile operations,
with a successful round-trip. -/
theorem C3_witness :
    respOk.error.truthy = false ∧ respOk.errors.truthy = false ∧
    exGEnv.ctx.userID ≠ "" ∧ exLEnv.ctx.userID ≠ "" ∧
    (((profileGuardV2 (.bool true) .func false exGEnv).internal = .pending ∧
      (profileGuardV2 (.bool true) .func false exGEnv).cbCalls =
        [(none, some ⟨true, true, .str exGEnv.ctx.userID,
          "Profile picture guard " ++ (if true then "enabled" else "disabled") ++
            " successfully"⟩)] ∧
      ((profileGuardV2 (.bool true) .func false exGEnv).posts.all
        (fun r => r.form.«variables».actor_id == JSVal.str exGEnv.ctx.userID)) = true) ∧
    ((lockProfile (.bool true) .func false exLEnv).internal = .pending ∧
      (lockProfile (.bool true) .func false exLEnv).cbCalls =
        [(none, some ⟨true, true, .str exLEnv.ctx.userID,
          "Profile " ++ (if true then "locked" else "unlocked") ++ " successfully",
          if true then
            "Your profile is now locked. Only friends can see your posts and photos."
          else
            "Your profile is now unlocked. Your privacy settings control who can " ++
              "see your content."⟩)] ∧
      ((lockProfile (.bool true) .func false exLEnv).posts.all
        (fun r => r.form.«variables».user_id == JSVal.str exLEnv.ctx.userID)) = true)) :=
  ⟨rfl, rfl, by decide, by decide,
    C3_second_slot_callback true false respOk rfl rfl exGEnv (by decide) rfl exLEnv
      (by decide) rfl⟩

end Waguri
